import Mathlib

/-!
Verification of the sanzu wire protocol core (`sanzu-common/src/proto.rs`):
length-prefixed framing (`Tunnel::send` / `Tunnel::recv`), success/error
envelopes, the error-chain bridge (`send_server_err_event`,
`recv_client_msg_or_error`, …) and the typed-dispatch macros
(`recv_client_msg_type`, `send_client_msg_type`, …).

The byte stream is modelled as a `List Nat` of bytes; stateful reads are
explicit: a receive returns its result together with the unread remainder of
the stream.  `anyhow` error values are modelled as a cons-list of context
strings over a base message (`AnyhowError`), where `context` pushes a new
outermost layer and `chain` lists layers outermost-first, exactly as
`anyhow::Error::context` / `Error::chain` behave.
-/

namespace SanzuProto

/-- Model of an `anyhow::Error`: a base message wrapped by zero or more
context layers.  `context m e` is `e.context(m)` in Rust: `m` becomes the new
outermost message and `e` the source. -/
inductive AnyhowError where
  | base (msg : String)
  | context (msg : String) (cause : AnyhowError)
deriving DecidableEq, Repr

instance {ε α : Type} [DecidableEq ε] [DecidableEq α] : DecidableEq (Except ε α)
  | .error e, .error f =>
    if h : e = f then .isTrue (by rw [h])
    else .isFalse (fun hc => h (Except.error.inj hc))
  | .error _, .ok _ => .isFalse (fun hc => Except.noConfusion hc)
  | .ok _, .error _ => .isFalse (fun hc => Except.noConfusion hc)
  | .ok a, .ok b =>
    if h : a = b then .isTrue (by rw [h])
    else .isFalse (fun hc => h (Except.ok.inj hc))

/-- Rendering of `anyhow::Error::chain()` as a list of `Display` strings, outermost first:
the error's own message, then its source's, and so on down to the root. -/
def AnyhowError.chain : AnyhowError → List String
  | .base m => [m]
  | .context m e => m :: e.chain

/-- The outermost message of an error (what `format!("{}", err)` prints). -/
def AnyhowError.head : AnyhowError → String
  | .base m => m
  | .context m _ => m

/-- Model of the `{:?}` debug rendering of an `anyhow::Error` (the exact text
is irrelevant to every claim; only that it is derived from the error). -/
def AnyhowError.debugFmt (e : AnyhowError) : String :=
  String.intercalate ": " e.chain

/-- Build an error whose innermost (root) message is `inner` and whose
context layers, applied innermost-to-outermost, are `outers`. -/
def AnyhowError.mkChain (inner : String) (outers : List String) : AnyhowError :=
  outers.foldl (fun e s => .context s e) (.base inner)

/-- Constant `MAX_PACKET_LEN: usize = 100 * 1024 * 1024` of `proto.rs`. -/
def MAX_PACKET_LEN : Nat := 100 * 1024 * 1024

/-- Function `LittleEndian::write_u64`: the 8 little-endian bytes of `n` (mod 2^64). -/
def u64le_encode (n : Nat) : List Nat :=
  [n % 256, n / 256 % 256, n / 256 ^ 2 % 256, n / 256 ^ 3 % 256,
   n / 256 ^ 4 % 256, n / 256 ^ 5 % 256, n / 256 ^ 6 % 256, n / 256 ^ 7 % 256]

/-- Function `ReadBytesExt::read_u64::<LittleEndian>` on an 8-byte buffer. -/
def u64le_decode : List Nat → Nat
  | b0 :: b1 :: b2 :: b3 :: b4 :: b5 :: b6 :: b7 :: _ =>
    b0 + 256 * (b1 + 256 * (b2 + 256 * (b3 + 256 * (b4 + 256 * (b5 +
      256 * (b6 + 256 * b7))))))
  | _ => 0

/-- Modelled from the spec: the message dictionary (`tunnel.proto`, compiled
by prost into the `tunnel` module) is not under `src/`; the spec treats it as
a closed set of named variants with opaque encode/decode.  `MessageClientMsg`
is `tunnel::message_client_ok::Msg`, the one-of across client variants,
modelled as a closed sum with two representative variants carrying `u64`
payloads. -/
inductive MessageClientMsg where
  | ping (nonce : Nat)
  | event (code : Nat)
deriving DecidableEq, Repr

/-- Modelled from the spec: `tunnel::message_server_ok::Msg`, the one-of
across server variants. -/
inductive MessageServerMsg where
  | display (n : Nat)
  | sound (n : Nat)
deriving DecidableEq, Repr

/-- Modelled from the spec: `tunnel::MessageClientOk` — a success payload
optionally wrapping one client variant. -/
structure MessageClientOk where
  msg : Option MessageClientMsg
deriving DecidableEq, Repr

/-- Modelled from the spec: `tunnel::MessageServerOk`. -/
structure MessageServerOk where
  msg : Option MessageServerMsg
deriving DecidableEq, Repr

/-- Modelled from the spec: `tunnel::EventError` — an ordered list of
human-readable cause strings. -/
structure EventError where
  errors : List String
deriving DecidableEq, Repr

/-- Modelled from the spec: `tunnel::client_msg_or_err::Msg`, the one-of of
the client-originated envelope: either a success payload or an error
report. -/
inductive ClientMsgOrErrMsg where
  | ok (m : MessageClientOk)
  | err (e : EventError)
deriving DecidableEq, Repr

/-- Modelled from the spec: `tunnel::server_msg_or_err::Msg`. -/
inductive ServerMsgOrErrMsg where
  | ok (m : MessageServerOk)
  | err (e : EventError)
deriving DecidableEq, Repr

/-- Modelled from the spec: `tunnel::ClientMsgOrErr`, the client-originated
envelope; its single optional field may be absent (an invalid envelope). -/
structure ClientMsgOrErr where
  msg : Option ClientMsgOrErrMsg
deriving DecidableEq, Repr

/-- Modelled from the spec: `tunnel::ServerMsgOrErr`. -/
structure ServerMsgOrErr where
  msg : Option ServerMsgOrErrMsg
deriving DecidableEq, Repr

/-- Modelled from the spec: a length-prefixed byte encoding of a string
(the codec itself is prost's, external; only `decode ∘ encode = id` and
failure on foreign bytes matter to the protocol core). -/
def encodeString (s : String) : List Nat :=
  u64le_encode s.data.length ++ s.data.map Char.toNat

/-- Modelled from the spec: decode one length-prefixed string, returning it
with the unconsumed remainder. -/
def decodeString (l : List Nat) : Option (String × List Nat) :=
  if l.length < 8 then none
  else
    let n := u64le_decode (l.take 8)
    let rest := l.drop 8
    if rest.length < n then none
    else some (String.mk ((rest.take n).map Char.ofNat), rest.drop n)

/-- Modelled from the spec: decode `n` consecutive strings. -/
def decodeStrings : Nat → List Nat → Option (List String × List Nat)
  | 0, l => some ([], l)
  | n + 1, l =>
    match decodeString l with
    | none => none
    | some (s, rest) =>
      match decodeStrings n rest with
      | none => none
      | some (ss, rest2) => some (s :: ss, rest2)

/-- Modelled from the spec: `EventError` encoding — a type tag, a count, then
the strings.  Distinct top-level type tags model prost's property that bytes
of one message type do not decode as another. -/
def EventError.encode (e : EventError) : List Nat :=
  12 :: u64le_encode e.errors.length ++ (e.errors.map encodeString).flatten

/-- Modelled from the spec: `EventError` decoding; requires full consumption
of the buffer. -/
def EventError.decode (l : List Nat) : Option EventError :=
  match l with
  | 12 :: rest =>
    if rest.length < 8 then none
    else
      match decodeStrings (u64le_decode (rest.take 8)) (rest.drop 8) with
      | some (ss, []) => some ⟨ss⟩
      | _ => none
  | _ => none

/-- Modelled from the spec: encoding of one client variant — a variant tag
byte followed by the fixed-width payload. -/
def MessageClientMsg.encode : MessageClientMsg → List Nat
  | .ping n => 0 :: u64le_encode n
  | .event n => 1 :: u64le_encode n

/-- Modelled from the spec: decoding of one client variant. -/
def MessageClientMsg.decode : List Nat → Option MessageClientMsg
  | 0 :: rest => if rest.length = 8 then some (.ping (u64le_decode rest)) else none
  | 1 :: rest => if rest.length = 8 then some (.event (u64le_decode rest)) else none
  | _ => none

/-- Modelled from the spec: encoding of one server variant. -/
def MessageServerMsg.encode : MessageServerMsg → List Nat
  | .display n => 0 :: u64le_encode n
  | .sound n => 1 :: u64le_encode n

/-- Modelled from the spec: decoding of one server variant. -/
def MessageServerMsg.decode : List Nat → Option MessageServerMsg
  | 0 :: rest => if rest.length = 8 then some (.display (u64le_decode rest)) else none
  | 1 :: rest => if rest.length = 8 then some (.sound (u64le_decode rest)) else none
  | _ => none

/-- Modelled from the spec: presence-tagged encoding of an optional field. -/
def encodeOpt {α : Type} (f : α → List Nat) : Option α → List Nat
  | none => [0]
  | some x => 1 :: f x

/-- Modelled from the spec: decoding of an optional field. -/
def decodeOpt {α : Type} (f : List Nat → Option α) : List Nat → Option (Option α)
  | [0] => some none
  | 1 :: rest => (f rest).map some
  | _ => none

/-- Modelled from the spec: `MessageClientOk` encoding. -/
def MessageClientOk.encode (m : MessageClientOk) : List Nat :=
  encodeOpt MessageClientMsg.encode m.msg

/-- Modelled from the spec: `MessageClientOk` decoding. -/
def MessageClientOk.decode (l : List Nat) : Option MessageClientOk :=
  (decodeOpt MessageClientMsg.decode l).map MessageClientOk.mk

/-- Modelled from the spec: `MessageServerOk` encoding. -/
def MessageServerOk.encode (m : MessageServerOk) : List Nat :=
  encodeOpt MessageServerMsg.encode m.msg

/-- Modelled from the spec: `MessageServerOk` decoding. -/
def MessageServerOk.decode (l : List Nat) : Option MessageServerOk :=
  (decodeOpt MessageServerMsg.decode l).map MessageServerOk.mk

/-- Modelled from the spec: the client envelope's one-of — a case tag, then
the case's encoding. -/
def ClientMsgOrErrMsg.encode : ClientMsgOrErrMsg → List Nat
  | .ok m => 0 :: m.encode
  | .err e => 1 :: e.encode

/-- Modelled from the spec: decoding of the client envelope's one-of. -/
def ClientMsgOrErrMsg.decode : List Nat → Option ClientMsgOrErrMsg
  | 0 :: rest => (MessageClientOk.decode rest).map .ok
  | 1 :: rest => (EventError.decode rest).map .err
  | _ => none

/-- Modelled from the spec: the server envelope's one-of. -/
def ServerMsgOrErrMsg.encode : ServerMsgOrErrMsg → List Nat
  | .ok m => 0 :: m.encode
  | .err e => 1 :: e.encode

/-- Modelled from the spec: decoding of the server envelope's one-of. -/
def ServerMsgOrErrMsg.decode : List Nat → Option ServerMsgOrErrMsg
  | 0 :: rest => (MessageServerOk.decode rest).map .ok
  | 1 :: rest => (EventError.decode rest).map .err
  | _ => none

/-- Modelled from the spec: `ClientMsgOrErr` encoding, under its own
top-level type tag. -/
def ClientMsgOrErr.encode (m : ClientMsgOrErr) : List Nat :=
  10 :: encodeOpt ClientMsgOrErrMsg.encode m.msg

/-- Modelled from the spec: `ClientMsgOrErr` decoding. -/
def ClientMsgOrErr.decode : List Nat → Option ClientMsgOrErr
  | 10 :: rest => (decodeOpt ClientMsgOrErrMsg.decode rest).map ClientMsgOrErr.mk
  | _ => none

/-- Modelled from the spec: `ServerMsgOrErr` encoding. -/
def ServerMsgOrErr.encode (m : ServerMsgOrErr) : List Nat :=
  11 :: encodeOpt ServerMsgOrErrMsg.encode m.msg

/-- Modelled from the spec: `ServerMsgOrErr` decoding. -/
def ServerMsgOrErr.decode : List Nat → Option ServerMsgOrErr
  | 11 :: rest => (decodeOpt ServerMsgOrErrMsg.decode rest).map ServerMsgOrErr.mk
  | _ => none

/-- Function `Tunnel::send`: the bytes written to the stream for request `req` under
encoder `enc` — an 8-byte little-endian length followed by the encoding. -/
def Tunnel.send {T : Type} (enc : T → List Nat) (req : T) : List Nat :=
  u64le_encode (enc req).length ++ enc req

/-- The `std::io` error produced by a failed `read_exact` (text irrelevant to
the claims), wrapped by `recv`'s `"Cannot read pkt"` context. -/
def cannotReadErr : AnyhowError :=
  .context "Cannot read pkt" (.base "failed to fill whole buffer")

/-- The error `recv` returns when both the primary and the fallback decode
fail: prost's decode error under the `"Cannot decode pkt"` context. -/
def cannotDecodeErr : AnyhowError :=
  .context "Cannot decode pkt" (.base "failed to decode Protobuf message")

/-- Function `Tunnel::recv` with primary decoder `dec` (the `prost::Message::decode`
of the expected type `T`) and fallback decoder `decErr` for
`tunnel::EventError`.  Returns the result together with the unread remainder
of the stream.  Mirrors `proto.rs` lines 68–98: read 8 header bytes, decode
the little-endian length, reject lengths above `MAX_PACKET_LEN` before
touching the body, read exactly `len` body bytes, decode as `T`, and on
failure fall back to decoding as `EventError`, rebuilding an error chain from
its `errors` list over the base message `"Error from server"`.
`Tunnel.recvBody` is the phase after the size check: allocate the `len`-byte
buffer, read it in full, and decode. -/
def Tunnel.recvBody {T : Type} (dec : List Nat → Option T) (len : Nat)
    (rest : List Nat) : Except AnyhowError T × List Nat :=
  if rest.length < len then
    (.error cannotReadErr, [])
  else
    let body := rest.take len
    match dec body with
    | some pkt => (.ok pkt, rest.drop len)
    | none =>
      match EventError.decode body with
      | some msg =>
          (.error (msg.errors.foldl (fun e s => .context s e)
            (.base "Error from server")), rest.drop len)
      | none => (.error cannotDecodeErr, rest.drop len)

/-- Function `Tunnel::recv`, header phase: see `Tunnel.recvBody`. -/
def Tunnel.recv {T : Type} (dec : List Nat → Option T) (stream : List Nat) :
    Except AnyhowError T × List Nat :=
  if stream.length < 8 then
    (.error cannotReadErr, stream)
  else
    let len := u64le_decode (stream.take 8)
    let rest := stream.drop 8
    if len > MAX_PACKET_LEN then
      (.error (.base "Packet too big!"), rest)
    else
      Tunnel.recvBody dec len rest

/-- Function `Tunnel::send` with its write outcome made explicit: when the stream's
write succeeds (`writeOk`) the framed bytes go on the wire; otherwise
`write_all` fails and `send` returns the io error under the
`"Cannot write pkt"` context. -/
def Tunnel.sendE {T : Type} (writeOk : Bool) (enc : T → List Nat) (req : T) :
    Except AnyhowError (List Nat) :=
  if writeOk then .ok (Tunnel.send enc req)
  else .error (.context "Cannot write pkt" (.base "failed to write whole buffer"))

/-- Function `send_server_err_event` (`proto.rs` 102–118): put the first (outermost)
element of the local error's `chain()` as the sole cause of an `Err`
envelope, send it, and return the send failure if sending failed, otherwise
the original error.  The second component exposes the wire-bound envelope
that `Tunnel::send` serializes. -/
def send_server_err_event (writeOk : Bool) (err : AnyhowError) :
    AnyhowError × ServerMsgOrErr :=
  let errors : List String :=
    match err.chain.head? with
    | some s => [s]
    | none => []
  let err_msg : EventError := ⟨errors⟩
  let srv_err_msg : ServerMsgOrErr := ⟨some (.err err_msg)⟩
  match Tunnel.sendE writeOk ServerMsgOrErr.encode srv_err_msg with
  | .error e =>
    (.base ("Error in send: Peer has closed connection? (" ++ e.debugFmt ++ ")"),
      srv_err_msg)
  | .ok _ => (err, srv_err_msg)

/-- Function `send_client_err_event` (`proto.rs` 206–222), the client-side twin of
`send_server_err_event`. -/
def send_client_err_event (writeOk : Bool) (err : AnyhowError) :
    AnyhowError × ClientMsgOrErr :=
  let errors : List String :=
    match err.chain.head? with
    | some s => [s]
    | none => []
  let err_msg : EventError := ⟨errors⟩
  let client_err_msg : ClientMsgOrErr := ⟨some (.err err_msg)⟩
  match Tunnel.sendE writeOk ClientMsgOrErr.encode client_err_msg with
  | .error e =>
    (.base ("Error in send: Peer has closed connection? (" ++ e.debugFmt ++ ")"),
      client_err_msg)
  | .ok _ => (err, client_err_msg)

/-- Function `recv_client_msg_or_error` (`proto.rs` 120–144): receive a
`ClientMsgOrErr` frame; unwrap the `Ok` case (failing `"Empty pkt from
client"` when its payload is absent), rebuild a local error chain from the
`Err` case by iterating its causes in reverse over the `"[end err]"` marker
and labelling it `"Error from client:"`, and fail `"Bad pkt from client"`
when neither case is set. -/
def recv_client_msg_or_error (stream : List Nat) :
    Except AnyhowError MessageClientMsg × List Nat :=
  match Tunnel.recv ClientMsgOrErr.decode stream with
  | (.error e, rest) => (.error (.context "Error in recv pkt" e), rest)
  | (.ok msg, rest) =>
    match msg.msg with
    | some (.ok msg_ok) =>
      match msg_ok.msg with
      | some m => (.ok m, rest)
      | none => (.error (.base "Empty pkt from client"), rest)
    | some (.err emsg) =>
      (.error (.context "Error from client:"
        (emsg.errors.reverse.foldl (fun e s => .context s e)
          (.base "[end err]"))), rest)
    | none => (.error (.base "Bad pkt from client"), rest)

/-- Function `recv_server_msg_or_error` (`proto.rs` 179–203), the client-side twin. -/
def recv_server_msg_or_error (stream : List Nat) :
    Except AnyhowError MessageServerMsg × List Nat :=
  match Tunnel.recv ServerMsgOrErr.decode stream with
  | (.error e, rest) => (.error (.context "Error in recv pkt" e), rest)
  | (.ok msg, rest) =>
    match msg.msg with
    | some (.ok msg_ok) =>
      match msg_ok.msg with
      | some m => (.ok m, rest)
      | none => (.error (.base "Empty pkt from server"), rest)
    | some (.err emsg) =>
      (.error (.context "Error from server:"
        (emsg.errors.reverse.foldl (fun e s => .context s e)
          (.base "[end err]"))), rest)
    | none => (.error (.base "Bad pkt from server"), rest)

/-- The closed set of client variant tags (§9 of the spec: the generative
per-variant macros become one function parameterized by the tag). -/
inductive ClientTag where
  | ping
  | event
deriving DecidableEq, Repr

/-- The payload type carried by each client variant. -/
@[reducible]
def ClientTag.payload : ClientTag → Type
  | .ping => Nat
  | .event => Nat

/-- The machine-width bound carried by each client variant's `u64` field. -/
def ClientTag.valid : (t : ClientTag) → t.payload → Prop
  | .ping, v => (v : Nat) < 2 ^ 64
  | .event, v => (v : Nat) < 2 ^ 64

/-- Build the variant of a tag from its payload. -/
def ClientTag.inject : (t : ClientTag) → t.payload → MessageClientMsg
  | .ping, v => .ping v
  | .event, v => .event v

/-- The tag of a client variant. -/
def MessageClientMsg.tag : MessageClientMsg → ClientTag
  | .ping _ => .ping
  | .event _ => .event

/-- The `if let Msg::$name(msg) = msg` match of `recv_client_msg_type!`:
the payload when the variant matches the requested tag. -/
def MessageClientMsg.extract : (t : ClientTag) → MessageClientMsg → Option t.payload
  | .ping, .ping v => some v
  | .event, .event v => some v
  | .ping, .event _ => none
  | .event, .ping _ => none

/-- The closed set of server variant tags. -/
inductive ServerTag where
  | display
  | sound
deriving DecidableEq, Repr

/-- The payload type carried by each server variant. -/
@[reducible]
def ServerTag.payload : ServerTag → Type
  | .display => Nat
  | .sound => Nat

/-- The machine-width bound of each server variant's field. -/
def ServerTag.valid : (t : ServerTag) → t.payload → Prop
  | .display, v => (v : Nat) < 2 ^ 64
  | .sound, v => (v : Nat) < 2 ^ 64

/-- Build the variant of a tag from its payload. -/
def ServerTag.inject : (t : ServerTag) → t.payload → MessageServerMsg
  | .display, v => .display v
  | .sound, v => .sound v

/-- The tag of a server variant. -/
def MessageServerMsg.tag : MessageServerMsg → ServerTag
  | .display _ => .display
  | .sound _ => .sound

/-- The variant match of `recv_server_msg_type!`. -/
def MessageServerMsg.extract : (t : ServerTag) → MessageServerMsg → Option t.payload
  | .display, .display v => some v
  | .sound, .sound v => some v
  | .display, .sound _ => none
  | .sound, .display _ => none

/-- Macro `send_client_msg_type!` (`proto.rs` 243–256): wrap payload `v` of
variant `t` in `MessageClientOk`, then in an `Ok` `ClientMsgOrErr`
envelope, and frame it with `Tunnel::send`; the result is the bytes put on
the wire. -/
def send_client_msg_type (t : ClientTag) (v : t.payload) : List Nat :=
  let msg_ok : MessageClientOk := ⟨some (t.inject v)⟩
  let msgclient_ok : ClientMsgOrErr := ⟨some (.ok msg_ok)⟩
  Tunnel.send ClientMsgOrErr.encode msgclient_ok

/-- Macro `send_server_msg_type!` (`proto.rs` 147–159). -/
def send_server_msg_type (t : ServerTag) (v : t.payload) : List Nat :=
  let msg_ok : MessageServerOk := ⟨some (t.inject v)⟩
  let msgsrv_ok : ServerMsgOrErr := ⟨some (.ok msg_ok)⟩
  Tunnel.send ServerMsgOrErr.encode msgsrv_ok

/-- Macro `recv_client_msg_type!` (`proto.rs` 162–177): receive through
`recv_client_msg_or_error`; wrap failures with `"Received error msg"`; on
success return the payload when the variant matches the requested tag, and
fail `"Bad packet type"` otherwise. -/
def recv_client_msg_type (t : ClientTag) (stream : List Nat) :
    Except AnyhowError t.payload × List Nat :=
  match recv_client_msg_or_error stream with
  | (.error e, rest) => (.error (.context "Received error msg" e), rest)
  | (.ok m, rest) =>
    match m.extract t with
    | some v => (.ok v, rest)
    | none => (.error (.base "Bad packet type"), rest)

/-- Macro `recv_server_msg_type!` (`proto.rs` 225–240). -/
def recv_server_msg_type (t : ServerTag) (stream : List Nat) :
    Except AnyhowError t.payload × List Nat :=
  match recv_server_msg_or_error stream with
  | (.error e, rest) => (.error (.context "Received error msg" e), rest)
  | (.ok m, rest) =>
    match m.extract t with
    | some v => (.ok v, rest)
    | none => (.error (.base "Bad packet type"), rest)

theorem u64le_encode_length (n : Nat) : (u64le_encode n).length = 8 := rfl

theorem u64le_decode_encode (n : Nat) (h : n < 2 ^ 64) :
    u64le_decode (u64le_encode n) = n := by
  simp only [u64le_encode, u64le_decode]
  omega

theorem AnyhowError.chain_foldl (l : List String) (b : AnyhowError) :
    (l.foldl (fun e s => AnyhowError.context s e) b).chain
      = l.reverse ++ b.chain := by
  induction l generalizing b with
  | nil => simp
  | cons x xs ih => simp [List.foldl_cons, ih, AnyhowError.chain]

theorem AnyhowError.chain_mkChain (inner : String) (outers : List String) :
    (AnyhowError.mkChain inner outers).chain = outers.reverse ++ [inner] :=
  AnyhowError.chain_foldl outers (.base inner)

theorem AnyhowError.mkChain_append (inner : String) (l : List String)
    (x : String) :
    AnyhowError.mkChain inner (l ++ [x])
      = AnyhowError.context x (AnyhowError.mkChain inner l) := by
  simp [AnyhowError.mkChain, List.foldl_append]

theorem AnyhowError.mkChain_ne_base (inner m : String) (outers : List String)
    (hm : m ≠ inner) : AnyhowError.mkChain inner outers ≠ .base m := by
  intro h
  have hchain := congrArg AnyhowError.chain h
  rw [AnyhowError.chain_mkChain] at hchain
  simp only [AnyhowError.chain] at hchain
  have hlen := congrArg List.length hchain
  simp only [List.length_append, List.length_reverse, List.length_cons,
    List.length_nil] at hlen
  have houters : outers = [] := List.eq_nil_of_length_eq_zero (by omega)
  subst houters
  simp only [List.reverse_nil, List.nil_append, List.cons.injEq] at hchain
  exact hm hchain.1.symm

theorem Tunnel.recvBody_ne_too_big {T : Type} (dec : List Nat → Option T)
    (len : Nat) (rest : List Nat) :
    (Tunnel.recvBody dec len rest).1 ≠ .error (.base "Packet too big!") := by
  unfold Tunnel.recvBody
  split
  · simp [cannotReadErr]
  · cases hdec : dec (rest.take len) with
    | some pkt => simp [hdec]
    | none =>
      cases herr : EventError.decode (rest.take len) with
      | some msg =>
        simp only [hdec, herr]
        intro hcontra
        exact AnyhowError.mkChain_ne_base "Error from server" "Packet too big!"
          msg.errors (by decide) (Except.error.inj hcontra)
      | none => simp [hdec, herr, cannotDecodeErr]

/-- C1: for every received frame whose 8-byte little-endian header decodes to
a length strictly above `MAX_PACKET_LEN`, `Tunnel::recv` fails with the
`"Packet too big!"` error immediately after reading the header: the result is
that error and the unread remainder of the stream is everything past the 8
header bytes, so no body byte is consumed (and the body-buffer allocation of
the next phase is never reached). -/
theorem recv_oversized_length_rejected_before_body {T : Type}
    (dec : List Nat → Option T) (stream : List Nat)
    (h8 : 8 ≤ stream.length)
    (hlen : MAX_PACKET_LEN < u64le_decode (stream.take 8)) :
    Tunnel.recv dec stream = (.error (.base "Packet too big!"), stream.drop 8) := by
  unfold Tunnel.recv
  rw [if_neg (by omega), if_pos hlen]

/-- Witness for C1: a frame header declaring 200 MiB (`209715200`) followed
by three body bytes is rejected with `"Packet too big!"` and the three body
bytes are left unread on the stream. -/
theorem recv_oversized_length_rejected_before_body_witness :
    Tunnel.recv ClientMsgOrErr.decode [0, 0, 128, 12, 0, 0, 0, 0, 9, 9, 9]
      = (.error (.base "Packet too big!"), [9, 9, 9]) :=
  recv_oversized_length_rejected_before_body ClientMsgOrErr.decode
    [0, 0, 128, 12, 0, 0, 0, 0, 9, 9, 9] (by decide) (by decide)

/-- C9: the size bound is inclusive — a frame whose declared length is
exactly `MAX_PACKET_LEN` is not rejected as too large: `recv` proceeds to the
body phase (`Tunnel.recvBody`: allocate the buffer and read the body), and in
particular never returns the `"Packet too big!"` error. -/
theorem recv_exact_max_length_not_rejected {T : Type}
    (dec : List Nat → Option T) (stream : List Nat)
    (h8 : 8 ≤ stream.length)
    (hlen : u64le_decode (stream.take 8) = MAX_PACKET_LEN) :
    Tunnel.recv dec stream = Tunnel.recvBody dec MAX_PACKET_LEN (stream.drop 8)
    ∧ (Tunnel.recv dec stream).1 ≠ .error (.base "Packet too big!") := by
  have hrecv : Tunnel.recv dec stream
      = Tunnel.recvBody dec MAX_PACKET_LEN (stream.drop 8) := by
    unfold Tunnel.recv
    rw [if_neg (by omega)]
    simp only [hlen]
    rw [if_neg (by omega)]
  exact ⟨hrecv, hrecv ▸ Tunnel.recvBody_ne_too_big dec MAX_PACKET_LEN (stream.drop 8)⟩

/-- Witness for C9: a header declaring exactly `MAX_PACKET_LEN`
(`104857600`) with no body bytes available enters the body-read phase (which
then fails with the short-read error `"Cannot read pkt"`, not the size
error). -/
theorem recv_exact_max_length_not_rejected_witness :
    Tunnel.recv ClientMsgOrErr.decode [0, 0, 64, 6, 0, 0, 0, 0]
      = Tunnel.recvBody ClientMsgOrErr.decode MAX_PACKET_LEN []
    ∧ (Tunnel.recv ClientMsgOrErr.decode [0, 0, 64, 6, 0, 0, 0, 0]).1
        ≠ .error (.base "Packet too big!") :=
  recv_exact_max_length_not_rejected ClientMsgOrErr.decode
    [0, 0, 64, 6, 0, 0, 0, 0] (by decide) (by decide)

/-- C2 counterexample: the claim says the fallback chain has the last-listed
cause innermost and the first-listed outermost.  On the concrete frame whose
payload is the error-envelope encoding of causes `["a", "b"]` (which fails
the primary `ClientMsgOrErr` decode), `Tunnel.recv` builds the chain with the
last-listed cause `"b"` outermost: the chain reads
`["b", "a", "Error from server"]`, not `["a", "b", "Error from server"]`. -/
theorem recv_fallback_order_counterexample :
    (Tunnel.recv ClientMsgOrErr.decode
        (Tunnel.send id (EventError.encode ⟨["a", "b"]⟩))).1
      = .error (.context "b" (.context "a" (.base "Error from server")))
    ∧ (AnyhowError.context "b"
        (.context "a" (.base "Error from server"))).chain
        = ["b", "a", "Error from server"]
    ∧ (AnyhowError.context "b"
        (.context "a" (.base "Error from server"))).chain
        ≠ ["a", "b", "Error from server"] := by decide

/-- C2 (amended): when the payload fails to decode as the expected type,
`Tunnel::recv` attempts exactly one fallback decode as `EventError`.  If the
fallback succeeds, it fails with a context chain built by iterating the cause
list in forward order — the first-listed cause innermost (just above the base
`"Error from server"` marker) and the last-listed cause outermost, so the
chain read outermost-first is the reversed cause list — and not with a raw
decode-failure error.  If the fallback also fails, it fails with the generic
`"Cannot decode pkt"` decode error. -/
theorem recv_fallback_decodes_error_envelope {T : Type}
    (dec : List Nat → Option T) (stream : List Nat)
    (h8 : 8 ≤ stream.length)
    (hmax : u64le_decode (stream.take 8) ≤ MAX_PACKET_LEN)
    (hbody : u64le_decode (stream.take 8) ≤ (stream.drop 8).length)
    (hfail : dec ((stream.drop 8).take (u64le_decode (stream.take 8))) = none) :
    (∀ msg : EventError,
      EventError.decode ((stream.drop 8).take (u64le_decode (stream.take 8)))
          = some msg →
        (Tunnel.recv dec stream).1
          = .error (AnyhowError.mkChain "Error from server" msg.errors)
        ∧ (AnyhowError.mkChain "Error from server" msg.errors).chain
          = msg.errors.reverse ++ ["Error from server"])
    ∧ (EventError.decode ((stream.drop 8).take (u64le_decode (stream.take 8)))
          = none →
        (Tunnel.recv dec stream).1 = .error cannotDecodeErr) := by
  have hrecv : Tunnel.recv dec stream
      = Tunnel.recvBody dec (u64le_decode (stream.take 8)) (stream.drop 8) := by
    unfold Tunnel.recv
    rw [if_neg (by omega), if_neg (by omega)]
  constructor
  · intro msg hmsg
    refine ⟨?_, AnyhowError.chain_mkChain "Error from server" msg.errors⟩
    rw [hrecv]
    unfold Tunnel.recvBody
    rw [if_neg (by omega)]
    simp only [hfail, hmsg]
    rfl
  · intro hmsg
    rw [hrecv]
    unfold Tunnel.recvBody
    rw [if_neg (by omega)]
    simp only [hfail, hmsg]

/-- Witness for C2 (amended): on the frame carrying the error-envelope
encoding of `["a", "b"]`, the fallback succeeds and yields the chain
`context "b" (context "a" (base "Error from server"))`, whose outermost-first
reading is the reversed cause list. -/
theorem recv_fallback_decodes_error_envelope_witness :
    (Tunnel.recv ClientMsgOrErr.decode
        (Tunnel.send id (EventError.encode ⟨["a", "b"]⟩))).1
      = .error (AnyhowError.mkChain "Error from server" ["a", "b"])
    ∧ (AnyhowError.mkChain "Error from server" ["a", "b"]).chain
      = ["a", "b"].reverse ++ ["Error from server"] :=
  (recv_fallback_decodes_error_envelope ClientMsgOrErr.decode
      (Tunnel.send id (EventError.encode ⟨["a", "b"]⟩))
      (by decide) (by decide) (by decide) (by decide)).1
    ⟨["a", "b"]⟩ (by decide)

/-- C10: the fallback path of `Tunnel::recv` labels the rebuilt failure with
the fixed base message `"Error from server"` regardless of direction: here
the server side receives with the client-envelope decoder
(`ClientMsgOrErr.decode`), and the innermost (last) element of the resulting
chain is still `"Error from server"`. -/
theorem recv_fallback_label_fixed {T : Type}
    (dec : List Nat → Option T) (stream : List Nat) (msg : EventError)
    (h8 : 8 ≤ stream.length)
    (hmax : u64le_decode (stream.take 8) ≤ MAX_PACKET_LEN)
    (hbody : u64le_decode (stream.take 8) ≤ (stream.drop 8).length)
    (hfail : dec ((stream.drop 8).take (u64le_decode (stream.take 8))) = none)
    (hmsg : EventError.decode ((stream.drop 8).take (u64le_decode (stream.take 8)))
        = some msg) :
    (Tunnel.recv dec stream).1
      = .error (AnyhowError.mkChain "Error from server" msg.errors)
    ∧ ((AnyhowError.mkChain "Error from server" msg.errors).chain).getLast?
      = some "Error from server" := by
  have hrecv : Tunnel.recv dec stream
      = Tunnel.recvBody dec (u64le_decode (stream.take 8)) (stream.drop 8) := by
    unfold Tunnel.recv
    rw [if_neg (by omega), if_neg (by omega)]
  constructor
  · rw [hrecv]
    unfold Tunnel.recvBody
    rw [if_neg (by omega)]
    simp only [hfail, hmsg]
    rfl
  · rw [AnyhowError.chain_mkChain]
    simp

/-- Witness for C10: a server receiving (with the client-envelope decoder) a
frame that decodes only as the error envelope `["boom"]` fails with a chain
whose base label is `"Error from server"`, even though the frame came from
the client direction. -/
theorem recv_fallback_label_fixed_witness :
    (Tunnel.recv ClientMsgOrErr.decode
        (Tunnel.send id (EventError.encode ⟨["boom"]⟩))).1
      = .error (AnyhowError.mkChain "Error from server" ["boom"])
    ∧ ((AnyhowError.mkChain "Error from server" ["boom"]).chain).getLast?
      = some "Error from server" :=
  recv_fallback_label_fixed ClientMsgOrErr.decode
    (Tunnel.send id (EventError.encode ⟨["boom"]⟩)) ⟨["boom"]⟩
    (by decide) (by decide) (by decide) (by decide) (by decide)

/-- C3: for a local error whose cause chain is `c1` (innermost) through `cN`
(outermost) — here built as `mkChain c1 (mid ++ [cN])` — both
`send_server_err_event` and `send_client_err_event` place exactly the
one-element list `[cN]` (the outermost cause alone) into the `causes` list of
the wire-bound `Err` envelope; no inner cause appears, whatever the write
outcome. -/
theorem err_event_transmits_only_outermost_cause (writeOk : Bool)
    (c1 : String) (mid : List String) (cN : String) :
    (send_server_err_event writeOk
        (AnyhowError.mkChain c1 (mid ++ [cN]))).2.msg
      = some (.err ⟨[cN]⟩)
    ∧ (send_client_err_event writeOk
        (AnyhowError.mkChain c1 (mid ++ [cN]))).2.msg
      = some (.err ⟨[cN]⟩) := by
  rw [AnyhowError.mkChain_append]
  cases writeOk <;>
    simp [send_server_err_event, send_client_err_event, Tunnel.sendE,
      AnyhowError.chain]

/-- C5: on a frame whose envelope decodes with the `Err` case populated with
causes `es` (resp. `fs`), `recv_client_msg_or_error` and
`recv_server_msg_or_error` fail with the error built by folding the cause
list in reverse over the `"[end err]"` base marker and wrapping it in the
top-level `"Error from client:"` / `"Error from server:"` context, so that
the chain read outermost-first is the label, then the causes in listed order
(first-listed outermost below the label, last-listed innermost), then the
marker. -/
theorem recv_err_envelope_rebuilds_reversed_chain
    (sc ss rc rs : List Nat) (es fs : List String)
    (hc : Tunnel.recv ClientMsgOrErr.decode sc = (.ok ⟨some (.err ⟨es⟩)⟩, rc))
    (hs : Tunnel.recv ServerMsgOrErr.decode ss = (.ok ⟨some (.err ⟨fs⟩)⟩, rs)) :
    (recv_client_msg_or_error sc).1
      = .error (.context "Error from client:"
          (AnyhowError.mkChain "[end err]" es.reverse))
    ∧ (AnyhowError.context "Error from client:"
        (AnyhowError.mkChain "[end err]" es.reverse)).chain
      = "Error from client:" :: (es ++ ["[end err]"])
    ∧ (recv_server_msg_or_error ss).1
      = .error (.context "Error from server:"
          (AnyhowError.mkChain "[end err]" fs.reverse))
    ∧ (AnyhowError.context "Error from server:"
        (AnyhowError.mkChain "[end err]" fs.reverse)).chain
      = "Error from server:" :: (fs ++ ["[end err]"]) := by
  refine ⟨?_, ?_, ?_, ?_⟩
  · unfold recv_client_msg_or_error
    rw [hc]
    rfl
  · simp [AnyhowError.chain, AnyhowError.chain_mkChain]
  · unfold recv_server_msg_or_error
    rw [hs]
    rfl
  · simp [AnyhowError.chain, AnyhowError.chain_mkChain]

/-- Witness for C5: concrete `Err` envelopes with causes `["a", "b"]` from
the client and `["x", "y"]` from the server rebuild the chains
`["Error from client:", "a", "b", "[end err]"]` and
`["Error from server:", "x", "y", "[end err]"]`. -/
theorem recv_err_envelope_rebuilds_reversed_chain_witness :
    (recv_client_msg_or_error
        (Tunnel.send ClientMsgOrErr.encode ⟨some (.err ⟨["a", "b"]⟩)⟩)).1
      = .error (.context "Error from client:"
          (AnyhowError.mkChain "[end err]" (List.reverse ["a", "b"])))
    ∧ (AnyhowError.context "Error from client:"
        (AnyhowError.mkChain "[end err]" (List.reverse ["a", "b"]))).chain
      = "Error from client:" :: (["a", "b"] ++ ["[end err]"])
    ∧ (recv_server_msg_or_error
        (Tunnel.send ServerMsgOrErr.encode ⟨some (.err ⟨["x", "y"]⟩)⟩)).1
      = .error (.context "Error from server:"
          (AnyhowError.mkChain "[end err]" (List.reverse ["x", "y"])))
    ∧ (AnyhowError.context "Error from server:"
        (AnyhowError.mkChain "[end err]" (List.reverse ["x", "y"]))).chain
      = "Error from server:" :: (["x", "y"] ++ ["[end err]"]) :=
  recv_err_envelope_rebuilds_reversed_chain
    (Tunnel.send ClientMsgOrErr.encode ⟨some (.err ⟨["a", "b"]⟩)⟩)
    (Tunnel.send ServerMsgOrErr.encode ⟨some (.err ⟨["x", "y"]⟩)⟩)
    [] [] ["a", "b"] ["x", "y"] (by decide) (by decide)

/-- C6: `send_server_err_event` and `send_client_err_event` always return an
error value (their return type is an error, never a success): when the
underlying send succeeds the original error is returned unchanged — full
cause chain preserved for local logging — and when the send fails the
returned value is the secondary send failure instead of the original. -/
theorem err_event_always_returns_error_value (err : AnyhowError) :
    (send_server_err_event true err).1 = err
    ∧ (send_client_err_event true err).1 = err
    ∧ (send_server_err_event false err).1
      = .base ("Error in send: Peer has closed connection? " ++
          "(Cannot write pkt: failed to write whole buffer)")
    ∧ (send_client_err_event false err).1
      = .base ("Error in send: Peer has closed connection? " ++
          "(Cannot write pkt: failed to write whole buffer)") := by
  refine ⟨rfl, rfl, ?_, ?_⟩ <;> rfl

/-- C7: an envelope with neither case populated makes
`recv_client_msg_or_error` / `recv_server_msg_or_error` fail with the
`"Bad pkt from client"` / `"Bad pkt from server"` error, and an envelope
whose `Ok` case is present with an absent inner payload makes them fail with
`"Empty pkt from client"` / `"Empty pkt from server"`; in no case is a
success value returned. -/
theorem recv_invalid_envelope_rejected
    (s1 s2 s3 s4 r1 r2 r3 r4 : List Nat)
    (h1 : Tunnel.recv ClientMsgOrErr.decode s1 = (.ok ⟨none⟩, r1))
    (h2 : Tunnel.recv ClientMsgOrErr.decode s2 = (.ok ⟨some (.ok ⟨none⟩)⟩, r2))
    (h3 : Tunnel.recv ServerMsgOrErr.decode s3 = (.ok ⟨none⟩, r3))
    (h4 : Tunnel.recv ServerMsgOrErr.decode s4 = (.ok ⟨some (.ok ⟨none⟩)⟩, r4)) :
    (recv_client_msg_or_error s1).1 = .error (.base "Bad pkt from client")
    ∧ (recv_client_msg_or_error s2).1 = .error (.base "Empty pkt from client")
    ∧ (recv_server_msg_or_error s3).1 = .error (.base "Bad pkt from server")
    ∧ (recv_server_msg_or_error s4).1 = .error (.base "Empty pkt from server") := by
  refine ⟨?_, ?_, ?_, ?_⟩
  · unfold recv_client_msg_or_error
    rw [h1]
  · unfold recv_client_msg_or_error
    rw [h2]
  · unfold recv_server_msg_or_error
    rw [h3]
  · unfold recv_server_msg_or_error
    rw [h4]

/-- Witness for C7: concrete frames encoding the envelope with no case set
and the envelope whose `Ok` payload is absent, in both directions, are
rejected with the corresponding errors. -/
theorem recv_invalid_envelope_rejected_witness :
    (recv_client_msg_or_error (Tunnel.send ClientMsgOrErr.encode ⟨none⟩)).1
      = .error (.base "Bad pkt from client")
    ∧ (recv_client_msg_or_error
        (Tunnel.send ClientMsgOrErr.encode ⟨some (.ok ⟨none⟩)⟩)).1
      = .error (.base "Empty pkt from client")
    ∧ (recv_server_msg_or_error (Tunnel.send ServerMsgOrErr.encode ⟨none⟩)).1
      = .error (.base "Bad pkt from server")
    ∧ (recv_server_msg_or_error
        (Tunnel.send ServerMsgOrErr.encode ⟨some (.ok ⟨none⟩)⟩)).1
      = .error (.base "Empty pkt from server") :=
  recv_invalid_envelope_rejected
    (Tunnel.send ClientMsgOrErr.encode ⟨none⟩)
    (Tunnel.send ClientMsgOrErr.encode ⟨some (.ok ⟨none⟩)⟩)
    (Tunnel.send ServerMsgOrErr.encode ⟨none⟩)
    (Tunnel.send ServerMsgOrErr.encode ⟨some (.ok ⟨none⟩)⟩)
    [] [] [] [] (by decide) (by decide) (by decide) (by decide)

theorem MessageClientMsg.extract_eq_none_client (t : ClientTag) (m : MessageClientMsg)
    (hne : m.tag ≠ t) : m.extract t = none := by
  cases t <;> cases m <;>
    simp_all [MessageClientMsg.tag, MessageClientMsg.extract]

theorem MessageClientMsg.extract_inject_client (t : ClientTag) (v : t.payload) :
    (t.inject v).extract t = some v := by
  cases t <;> rfl

theorem MessageServerMsg.extract_eq_none_server (t : ServerTag) (m : MessageServerMsg)
    (hne : m.tag ≠ t) : m.extract t = none := by
  cases t <;> cases m <;>
    simp_all [MessageServerMsg.tag, MessageServerMsg.extract]

theorem MessageServerMsg.extract_inject_server (t : ServerTag) (v : t.payload) :
    (t.inject v).extract t = some v := by
  cases t <;> rfl

/-- C8: when the envelope layer yields a message `m` while the typed dispatch
requested variant tag `t`, the dispatch fails with `"Bad packet type"` (and
returns no value) whenever `m`'s variant differs from `t`, and returns the
inner payload whenever `m` is the `t`-variant; likewise on the server side. -/
theorem dispatch_checks_variant
    (t : ClientTag) (s rest : List Nat) (m : MessageClientMsg)
    (h : recv_client_msg_or_error s = (.ok m, rest))
    (u : ServerTag) (s2 rest2 : List Nat) (n : MessageServerMsg)
    (h2 : recv_server_msg_or_error s2 = (.ok n, rest2)) :
    (m.tag ≠ t →
      (recv_client_msg_type t s).1 = .error (.base "Bad packet type"))
    ∧ (∀ v : t.payload, m = t.inject v → (recv_client_msg_type t s).1 = .ok v)
    ∧ (n.tag ≠ u →
      (recv_server_msg_type u s2).1 = .error (.base "Bad packet type"))
    ∧ (∀ w : u.payload, n = u.inject w → (recv_server_msg_type u s2).1 = .ok w) := by
  refine ⟨?_, ?_, ?_, ?_⟩
  · intro hne
    unfold recv_client_msg_type
    rw [h]
    simp only [MessageClientMsg.extract_eq_none_client t m hne]
  · intro v hv
    unfold recv_client_msg_type
    rw [h, hv]
    simp only [MessageClientMsg.extract_inject_client t v]
  · intro hne
    unfold recv_server_msg_type
    rw [h2]
    simp only [MessageServerMsg.extract_eq_none_server u n hne]
  · intro w hw
    unfold recv_server_msg_type
    rw [h2, hw]
    simp only [MessageServerMsg.extract_inject_server u w]

/-- Witness for C8: a frame carrying the client variant `ping 42` requested
as variant `event` fails with `"Bad packet type"`, and a frame carrying the
server variant `display 7` requested as variant `sound` fails likewise;
matching requests return the payloads. -/
theorem dispatch_checks_variant_witness :
    ((MessageClientMsg.ping 42).tag ≠ ClientTag.event →
      (recv_client_msg_type ClientTag.event
          (Tunnel.send ClientMsgOrErr.encode ⟨some (.ok ⟨some (.ping 42)⟩)⟩)).1
        = .error (.base "Bad packet type"))
    ∧ (∀ v : ClientTag.event.payload,
        MessageClientMsg.ping 42 = ClientTag.event.inject v →
        (recv_client_msg_type ClientTag.event
            (Tunnel.send ClientMsgOrErr.encode ⟨some (.ok ⟨some (.ping 42)⟩)⟩)).1
          = .ok v)
    ∧ ((MessageServerMsg.display 7).tag ≠ ServerTag.sound →
      (recv_server_msg_type ServerTag.sound
          (Tunnel.send ServerMsgOrErr.encode ⟨some (.ok ⟨some (.display 7)⟩)⟩)).1
        = .error (.base "Bad packet type"))
    ∧ (∀ w : ServerTag.sound.payload,
        MessageServerMsg.display 7 = ServerTag.sound.inject w →
        (recv_server_msg_type ServerTag.sound
            (Tunnel.send ServerMsgOrErr.encode ⟨some (.ok ⟨some (.display 7)⟩)⟩)).1
          = .ok w) :=
  dispatch_checks_variant ClientTag.event
    (Tunnel.send ClientMsgOrErr.encode ⟨some (.ok ⟨some (.ping 42)⟩)⟩)
    [] (.ping 42) (by decide)
    ServerTag.sound
    (Tunnel.send ServerMsgOrErr.encode ⟨some (.ok ⟨some (.display 7)⟩)⟩)
    [] (.display 7) (by decide)

theorem Tunnel.recv_send {T : Type} (dec : List Nat → Option T)
    (enc : T → List Nat) (x : T)
    (hmax : (enc x).length ≤ MAX_PACKET_LEN)
    (hdec : dec (enc x) = some x) :
    Tunnel.recv dec (Tunnel.send enc x) = (.ok x, []) := by
  have hlt : (enc x).length < 2 ^ 64 := by
    have : MAX_PACKET_LEN < 2 ^ 64 := by decide
    omega
  have h1 : (u64le_encode (enc x).length ++ enc x).take 8
      = u64le_encode (enc x).length := by
    have := List.take_left (u64le_encode (enc x).length) (enc x)
    rwa [u64le_encode_length] at this
  have h2 : (u64le_encode (enc x).length ++ enc x).drop 8 = enc x := by
    have := List.drop_left (u64le_encode (enc x).length) (enc x)
    rwa [u64le_encode_length] at this
  have hlen : (u64le_encode (enc x).length ++ enc x).length
      = 8 + (enc x).length := by
    simp [u64le_encode_length]
  unfold Tunnel.send Tunnel.recv
  rw [if_neg (by omega)]
  simp only [h1, h2, u64le_decode_encode _ hlt]
  rw [if_neg (by omega)]
  unfold Tunnel.recvBody
  rw [if_neg (by omega)]
  simp only [List.take_length, List.drop_length, hdec]

theorem ClientMsgOrErr.encode_ok_length_client (t : ClientTag) (v : t.payload) :
    (ClientMsgOrErr.encode ⟨some (.ok ⟨some (t.inject v)⟩)⟩).length = 13 := by
  cases t <;> rfl

theorem ServerMsgOrErr.encode_ok_length_server (t : ServerTag) (v : t.payload) :
    (ServerMsgOrErr.encode ⟨some (.ok ⟨some (t.inject v)⟩)⟩).length = 13 := by
  cases t <;> rfl

theorem ClientMsgOrErr.decode_encode_ok_client (t : ClientTag) (v : t.payload)
    (hv : t.valid v) :
    ClientMsgOrErr.decode
        (ClientMsgOrErr.encode ⟨some (.ok ⟨some (t.inject v)⟩)⟩)
      = some ⟨some (.ok ⟨some (t.inject v)⟩)⟩ := by
  have hv' : (match t with
      | ClientTag.ping => (v : Nat)
      | ClientTag.event => (v : Nat)) < 2 ^ 64 := by
    cases t <;> exact hv
  cases t <;>
    simp_all [ClientMsgOrErr.encode, ClientMsgOrErr.decode, encodeOpt,
      decodeOpt, ClientMsgOrErrMsg.encode, ClientMsgOrErrMsg.decode,
      MessageClientOk.encode, MessageClientOk.decode,
      MessageClientMsg.encode, MessageClientMsg.decode,
      ClientTag.inject, u64le_encode_length, u64le_decode_encode]

theorem ServerMsgOrErr.decode_encode_ok_server (t : ServerTag) (v : t.payload)
    (hv : t.valid v) :
    ServerMsgOrErr.decode
        (ServerMsgOrErr.encode ⟨some (.ok ⟨some (t.inject v)⟩)⟩)
      = some ⟨some (.ok ⟨some (t.inject v)⟩)⟩ := by
  have hv' : (match t with
      | ServerTag.display => (v : Nat)
      | ServerTag.sound => (v : Nat)) < 2 ^ 64 := by
    cases t <;> exact hv
  cases t <;>
    simp_all [ServerMsgOrErr.encode, ServerMsgOrErr.decode, encodeOpt,
      decodeOpt, ServerMsgOrErrMsg.encode, ServerMsgOrErrMsg.decode,
      MessageServerOk.encode, MessageServerOk.decode,
      MessageServerMsg.encode, MessageServerMsg.decode,
      ServerTag.inject, u64le_encode_length, u64le_decode_encode]

/-- C4: round trip — for every message value of a known variant (any client
variant tag `t` with payload `v` within its field's `u64` range, and any
server tag `u` with payload `w`), sending with the send-side dispatch
(`send_client_msg_type` / `send_server_msg_type`: `Ok` envelope tagged with
that variant, framed by `Tunnel::send`) and receiving from the resulting
bytes with the typed receive for the matching variant yields exactly the
sent value. -/
theorem send_recv_roundtrip (t : ClientTag) (v : t.payload) (hv : t.valid v)
    (u : ServerTag) (w : u.payload) (hw : u.valid w) :
    recv_client_msg_type t (send_client_msg_type t v) = (.ok v, [])
    ∧ recv_server_msg_type u (send_server_msg_type u w) = (.ok w, []) := by
  constructor
  · unfold send_client_msg_type recv_client_msg_type recv_client_msg_or_error
    rw [Tunnel.recv_send ClientMsgOrErr.decode ClientMsgOrErr.encode _
      (by rw [ClientMsgOrErr.encode_ok_length_client]; decide)
      (ClientMsgOrErr.decode_encode_ok_client t v hv)]
    simp only [MessageClientMsg.extract_inject_client t v]
  · unfold send_server_msg_type recv_server_msg_type recv_server_msg_or_error
    rw [Tunnel.recv_send ServerMsgOrErr.decode ServerMsgOrErr.encode _
      (by rw [ServerMsgOrErr.encode_ok_length_server]; decide)
      (ServerMsgOrErr.decode_encode_ok_server u w hw)]
    simp only [MessageServerMsg.extract_inject_server u w]

/-- Witness for C4: `ping 42` sent by the client and `sound 7` sent by the
server round-trip through their byte frames to the original values. -/
theorem send_recv_roundtrip_witness :
    recv_client_msg_type ClientTag.ping
        (send_client_msg_type ClientTag.ping 42) = (.ok 42, [])
    ∧ recv_server_msg_type ServerTag.sound
        (send_server_msg_type ServerTag.sound 7) = (.ok 7, []) :=
  send_recv_roundtrip ClientTag.ping 42 (by show (42 : Nat) < 2 ^ 64; decide)
    ServerTag.sound 7 (by show (7 : Nat) < 2 ^ 64; decide)

end SanzuProto
